import Mathlib

/-!
Shallow embedding of the ride-dispatch backend (`main.py`, `models.py`).

Conventions of the embedding:
* `datetime` values are modelled as `Nat` timestamps (seconds); differences
  that Python computes with `total_seconds()` are taken in `Int` and hours
  in `ℚ` (the float arithmetic of the source is exact on these operations
  at the granularity the specification talks about).
* Mongo/Beanie collections are lists of documents; `find_one(pred)` is
  `List.find?`, `insert` appends, and `save` replaces every document whose
  primary key `id` equals the saved document's `id` (Mongo enforces a unique
  `_id` index, so at most one document is ever replaced in a real store).
* `HTTPException(status_code, detail)` is `ApiError`.  The specification's
  taxonomy maps onto it as: NotFound = 404, InvalidTransition = the 400
  errors raised by the ride state-machine guards, Conflict = the 400
  duplicate-email error, Forbidden = 403.
* Request bodies (`dict` payloads) are modelled by structures carrying the
  fields the handlers read; `dict.get` of an optional key is `Option`.
* Python truthiness on `Optional[int]` (`if ride.start_km and end_km`) is
  `py_truthy_int`: `None` and `0` are falsy.  Truthiness on an optional
  string query parameter is `py_truthy_str`: `None` and `""` are falsy.
  Truthiness on an `Optional[datetime]` is just an `isSome` test, since
  `datetime` objects are always truthy.
-/

/-- Roles of `UserRole(str, Enum)` in `models.py`. -/
inductive UserRole where
  | admin
  | driver
  | passenger
deriving DecidableEq, Repr

/-- Ride states of `RideStatus(str, Enum)` in `models.py`. -/
inductive RideStatus where
  | requested
  | assigned
  | accepted
  | picking_up
  | in_progress
  | completed
  | cancelled
deriving DecidableEq, Repr

/-- `HTTPException` as raised by the handlers: an HTTP status code plus the
`detail` string. -/
structure ApiError where
  status_code : Nat
  detail : String
deriving DecidableEq, Repr

/-- `User` document (`models.py`).  The `avatar` field and the response-only
sub-objects are irrelevant to every modelled operation and are omitted. -/
structure User where
  id : String
  name : String
  email : String
  phone : String
  role : UserRole
  password_hash : String
  created_at : Nat
  is_active : Bool
deriving DecidableEq, Repr

/-- `Driver` document (`models.py`), restricted to the fields read or written
by the modelled operations (`assign_ride`, `start_ride`, `complete_ride`,
`update_my_status`, `create_driver`).  The vehicle descriptor, license
descriptor, rating/total_rides counters and live location are carried by the
source model but never consulted by the state machines under verification. -/
structure Driver where
  id : String
  user_id : String
  is_online : Bool
  last_status_change : Nat
deriving DecidableEq, Repr

/-- `Passenger` document (`models.py`). -/
structure Passenger where
  id : String
  user_id : String
  rating : ℚ
  total_rides : Int
deriving DecidableEq, Repr

/-- `Ride` document (`models.py`): the workflow fields.  Pickup/dropoff
coordinates and addresses and the duration estimates are opaque payload for
every transition (they are copied, never read) and are omitted. -/
structure Ride where
  id : String
  passenger_id : String
  driver_id : Option String
  status : RideStatus
  requested_at : Nat
  assigned_at : Option Nat
  accepted_at : Option Nat
  picked_up_at : Option Nat
  completed_at : Option Nat
  cancelled_at : Option Nat
  distance : Int
  start_km : Option Int
  end_km : Option Int
deriving DecidableEq, Repr

/-- `FuelEntry` document (`models.py`). -/
structure FuelEntry where
  id : String
  driver_id : String
  amount : ℚ
  cost : ℚ
  date : Nat
  location : String
  added_by : String
  admin_id : Option String
deriving DecidableEq, Repr

/-- `DriverAttendance` document (`models.py`). -/
structure DriverAttendance where
  id : String
  driver_id : String
  date : Nat
  check_in : Option Nat
  check_out : Option Nat
  total_hours : Option ℚ
  status : String
deriving DecidableEq, Repr

/-- The document store: one list per collection used by the modelled
handlers. -/
structure DB where
  users : List User
  drivers : List Driver
  passengers : List Passenger
  rides : List Ride
  fuel_entries : List FuelEntry
  attendance : List DriverAttendance
deriving DecidableEq, Repr

/-- Beanie `save` on the rides collection: full-document replace by primary
key `id`. -/
def saveRide (rides : List Ride) (r : Ride) : List Ride :=
  rides.map (fun x => if x.id == r.id then r else x)

/-- Beanie `save` on the drivers collection. -/
def saveDriver (drivers : List Driver) (d : Driver) : List Driver :=
  drivers.map (fun x => if x.id == d.id then d else x)

/-- Beanie `save` on the attendance collection. -/
def saveAttendance (att : List DriverAttendance) (a : DriverAttendance) :
    List DriverAttendance :=
  att.map (fun x => if x.id == a.id then a else x)

/-- Python truthiness of an `Optional[int]`: `None` and `0` are falsy. -/
def py_truthy_int : Option Int → Bool
  | none => false
  | some n => n != 0

/-- Python truthiness of an optional string: `None` and `""` are falsy. -/
def py_truthy_str : Option String → Bool
  | none => false
  | some s => s != ""

/-- `POST /rides/{ride_id}/assign` (`assign_ride`, main.py lines 356-376).
Admin-only; the admin guard runs before the handler and is not part of the
handler body.  `driver_id` is the `driver_id` field of the request body. -/
def assign_ride (db : DB) (ride_id : String) (driver_id : String)
    (now : Nat) : Except ApiError DB :=
  match db.rides.find? (fun r => r.id == ride_id) with
  | none => .error ⟨404, "Ride not found"⟩
  | some ride =>
    if ride.status ≠ RideStatus.requested then
      .error ⟨400, "Ride is not in pending status"⟩
    else
      match db.drivers.find? (fun d => d.id == driver_id) with
      | none => .error ⟨404, "Driver not found"⟩
      | some _ =>
        .ok { db with rides := saveRide db.rides (
          { ride with
            driver_id := some driver_id
            status := RideStatus.assigned
            assigned_at := some now }) }

/-- `POST /rides/{ride_id}/start` (`start_ride`, main.py lines 397-412).
`uid` is `current_user.id` of the authenticated driver; `start_km` is
`start_data.get("start_km")`. -/
def start_ride (db : DB) (ride_id : String) (uid : String)
    (start_km : Option Int) (now : Nat) : Except ApiError DB :=
  match db.rides.find? (fun r => r.id == ride_id && r.driver_id == some uid) with
  | none => .error ⟨404, "Ride not found"⟩
  | some ride =>
    if ride.status ≠ RideStatus.assigned then
      .error ⟨400, "Ride is not assigned"⟩
    else
      .ok { db with rides := saveRide db.rides (
        { ride with
          status := RideStatus.in_progress
          picked_up_at := some now
          start_km := start_km }) }

/-- Distance expression of `complete_ride`:
`end_km - ride.start_km if ride.start_km and end_km else 0`.
The condition is Python truthiness of both operands, so a reading of `0`
counts as absent. -/
def ride_distance (start_km end_km : Option Int) : Int :=
  if py_truthy_int start_km && py_truthy_int end_km then
    end_km.getD 0 - start_km.getD 0
  else 0

/-- `POST /rides/{ride_id}/complete` (`complete_ride`, main.py lines
414-433).  `uid` is `current_user.id`; `end_km` is
`complete_data.get("end_km")`. -/
def complete_ride (db : DB) (ride_id : String) (uid : String)
    (end_km : Option Int) (now : Nat) : Except ApiError DB :=
  match db.rides.find? (fun r => r.id == ride_id && r.driver_id == some uid) with
  | none => .error ⟨404, "Ride not found"⟩
  | some ride =>
    if ride.status ≠ RideStatus.in_progress then
      .error ⟨400, "Ride is not in progress"⟩
    else
      .ok { db with rides := saveRide db.rides (
        { ride with
          status := RideStatus.completed
          completed_at := some now
          end_km := end_km
          distance := ride_distance ride.start_km end_km }) }

/-- `total_hours` expression of `update_my_status`:
`(attendance.check_out - attendance.check_in).total_seconds() / 3600.0` when
`check_in` is present, else `0.0`. -/
def total_hours_calc (check_in : Option Nat) (check_out : Nat) : ℚ :=
  match check_in with
  | some ci => (((check_out : Int) - (ci : Int) : Int) : ℚ) / 3600
  | none => 0

/-- `PUT /drivers/me/status` (`update_my_status`, main.py lines 436-481).
`uid` is `current_user.id`; `today` is the midnight timestamp
`datetime(today.year, today.month, today.day)`; `fresh` is the UUID the
store mints for a newly inserted attendance record. -/
def update_my_status (db : DB) (uid : String) (is_online : Bool)
    (now : Nat) (today : Nat) (fresh : String) : Except ApiError DB :=
  match db.drivers.find? (fun d => d.user_id == uid) with
  | none => .error ⟨404, "Driver profile not found"⟩
  | some driver =>
    if is_online then
      match db.attendance.find?
          (fun a => a.driver_id == driver.id && a.date == today) with
      | none =>
        .ok { db with
          drivers := saveDriver db.drivers
            { driver with is_online := is_online, last_status_change := now }
          attendance := db.attendance ++
            [{ id := fresh
               driver_id := driver.id
               date := today
               check_in := some now
               check_out := none
               total_hours := none
               status := "present" }] }
      | some att =>
        if att.check_in.isNone then
          .ok { db with
            drivers := saveDriver db.drivers
              { driver with is_online := is_online, last_status_change := now }
            attendance := saveAttendance db.attendance
              { att with check_in := some now, status := "present" } }
        else
          .ok { db with
            drivers := saveDriver db.drivers
              { driver with is_online := is_online, last_status_change := now }
            attendance := db.attendance }
    else
      match db.attendance.find?
          (fun a => a.driver_id == driver.id && a.date == today) with
      | some att =>
        if att.check_out.isNone then
          .ok { db with
            drivers := saveDriver db.drivers
              { driver with is_online := is_online, last_status_change := now }
            attendance := saveAttendance db.attendance
              { att with
                check_out := some now
                total_hours := some (total_hours_calc att.check_in now) } }
        else
          .ok { db with
            drivers := saveDriver db.drivers
              { driver with is_online := is_online, last_status_change := now }
            attendance := db.attendance }
      | none =>
        .ok { db with
          drivers := saveDriver db.drivers
            { driver with is_online := is_online, last_status_change := now }
          attendance := db.attendance }

/-- `GET /fuel-entries` (`get_fuel_entries`, main.py lines 511-573).  The
source enriches admin responses with driver/user sub-objects (a read-time
join that shapes the response but does not change which entries are
selected); the embedding returns the selected entries. -/
def get_fuel_entries (db : DB) (current_user : User)
    (driver_id : Option String) : Except ApiError (List FuelEntry) :=
  if current_user.role = UserRole.admin then
    if py_truthy_str driver_id then
      .ok (db.fuel_entries.filter (fun e => e.driver_id == driver_id.getD ""))
    else
      .ok (db.fuel_entries.filter (fun _ => true))
  else if current_user.role = UserRole.driver then
    .ok (db.fuel_entries.filter (fun e => e.driver_id == current_user.id))
  else
    .error ⟨403, "Not authorized"⟩

/-- Request body of `POST /users`: the fields `create_user` reads, plus the
(ignored) `password` key a client may supply. -/
structure UserData where
  name : String
  email : String
  phone : String
  role : UserRole
  password : Option String
deriving DecidableEq, Repr

/-- `POST /users` (`create_user`, main.py lines 85-103).  `fresh` is the
UUID minted for the new document.  The handler hashes the fixed string
`"password"`; `get_password_hash` (from the auth module) is passed as an
explicit function. -/
def create_user (get_password_hash : String → String) (db : DB)
    (user_data : UserData) (fresh : String) (now : Nat) :
    Except ApiError (DB × User) :=
  match db.users.find? (fun u => u.email == user_data.email) with
  | some _ => .error ⟨400, "User with this email already exists"⟩
  | none =>
    let new_user : User :=
      { id := fresh
        name := user_data.name
        email := user_data.email
        phone := user_data.phone
        role := user_data.role
        password_hash := get_password_hash "password"
        created_at := now
        is_active := true }
    .ok ({ db with users := db.users ++ [new_user] }, new_user)

/-- Request body of `POST /drivers`: a nested `user` object plus the driver
profile fields `create_driver` forwards to `Driver.create_driver`.  The
license/odometer payload is opaque to the modelled `Driver` document. -/
structure DriverData where
  user : UserData
deriving DecidableEq, Repr

/-- `POST /drivers` (`create_driver`, main.py lines 105-133).  Creates the
`User` (with the hardcoded default password, role `"driver"`) and then the
driver profile via `Driver.create_driver` (fresh id, `is_online` and
`last_status_change` take the model defaults). -/
def create_driver (get_password_hash : String → String) (db : DB)
    (driver_data : DriverData) (fresh_user : String) (fresh_driver : String)
    (now : Nat) : Except ApiError (DB × User × Driver) :=
  match db.users.find? (fun u => u.email == driver_data.user.email) with
  | some _ => .error ⟨400, "User with this email already exists"⟩
  | none =>
    let new_user : User :=
      { id := fresh_user
        name := driver_data.user.name
        email := driver_data.user.email
        phone := driver_data.user.phone
        role := UserRole.driver
        password_hash := get_password_hash "password"
        created_at := now
        is_active := true }
    let driver_profile : Driver :=
      { id := fresh_driver
        user_id := new_user.id
        is_online := false
        last_status_change := now }
    .ok ({ db with
            users := db.users ++ [new_user]
            drivers := db.drivers ++ [driver_profile] },
         new_user, driver_profile)

/-- Request body of `POST /passengers`. -/
structure PassengerData where
  user : UserData
  rating : Option ℚ
  total_rides : Option Int
deriving DecidableEq, Repr

/-- `POST /passengers` (`create_passenger`, main.py lines 135-161). -/
def create_passenger (get_password_hash : String → String) (db : DB)
    (passenger_data : PassengerData) (fresh_user : String)
    (fresh_passenger : String) (now : Nat) :
    Except ApiError (DB × User × Passenger) :=
  match db.users.find? (fun u => u.email == passenger_data.user.email) with
  | some _ => .error ⟨400, "User with this email already exists"⟩
  | none =>
    let new_user : User :=
      { id := fresh_user
        name := passenger_data.user.name
        email := passenger_data.user.email
        phone := passenger_data.user.phone
        role := UserRole.passenger
        password_hash := get_password_hash "password"
        created_at := now
        is_active := true }
    let passenger_profile : Passenger :=
      { id := fresh_passenger
        user_id := new_user.id
        rating := passenger_data.rating.getD 5
        total_rides := passenger_data.total_rides.getD 0 }
    .ok ({ db with
            users := db.users ++ [new_user]
            passengers := db.passengers ++ [passenger_profile] },
         new_user, passenger_profile)

/-- Observation: the ride with primary key `rid` in the database produced by
a handler, if the handler succeeded. -/
def rideAfter (res : Except ApiError DB) (rid : String) : Option Ride :=
  res.toOption.bind (fun db => db.rides.find? (fun r => r.id == rid))

/-- Observation: the attendance collection of the database produced by a
handler, if the handler succeeded. -/
def attendanceAfter (res : Except ApiError DB) : Option (List DriverAttendance) :=
  res.toOption.map DB.attendance

/-- Observation: today's attendance record of driver `did` in the database
produced by a handler, if the handler succeeded. -/
def attAfter (res : Except ApiError DB) (did : String) (today : Nat) :
    Option DriverAttendance :=
  res.toOption.bind
    (fun db => db.attendance.find? (fun a => a.driver_id == did && a.date == today))

/-- At most one attendance record per (driver_id, calendar date) pair. -/
def attInv (l : List DriverAttendance) : Prop :=
  l.Pairwise (fun a b => ¬ (a.driver_id = b.driver_id ∧ a.date = b.date))

/-- Primary-key uniqueness of a collection of attendance documents (enforced
by the store's unique `_id` index). -/
def attIdsUnique (l : List DriverAttendance) : Prop :=
  l.Pairwise (fun a b => a.id ≠ b.id)

instance (l : List DriverAttendance) : Decidable (attInv l) := by
  unfold attInv
  infer_instance

instance (l : List DriverAttendance) : Decidable (attIdsUnique l) := by
  unfold attIdsUnique
  infer_instance

/-! ### Lemmas about `find?` over a saved collection -/

/-- Unfolding of `find?` at a matching head, with the predicate explicit. -/
theorem find?_cons_pos {α : Type} (p : α → Bool) (a : α) (l : List α)
    (h : p a = true) : (a :: l).find? p = some a := by
  simp [List.find?, h]

/-- Unfolding of `find?` at a non-matching head, with the predicate
explicit. -/
theorem find?_cons_neg {α : Type} (p : α → Bool) (a : α) (l : List α)
    (h : p a = false) : (a :: l).find? p = l.find? p := by
  simp [List.find?, h]

/-- After saving `r'` whose primary key is `rid`, looking the ride up by
`rid` returns `r'`, provided some ride with key `rid` was present. -/
theorem find?_saveRide_isSome (l : List Ride) (r' : Ride) (rid : String)
    (hid : r'.id = rid)
    (h : (l.find? (fun x => x.id == rid)).isSome = true) :
    (saveRide l r').find? (fun x => x.id == rid) = some r' := by
  induction l with
  | nil => simp at h
  | cons x xs ih =>
    simp only [saveRide, List.map_cons]
    by_cases hx : (x.id == rid) = true
    · rw [if_pos (by rw [hid]; exact hx)]
      exact find?_cons_pos (fun y => y.id == rid) r' _ (by simp [hid])
    · have hx0 : (x.id == rid) = false := by simpa using hx
      rw [if_neg (by rw [hid]; exact hx)]
      rw [find?_cons_neg (fun y => y.id == rid) x _ hx0]
      rw [find?_cons_neg (fun y => y.id == rid) x _ hx0] at h
      simpa [saveRide] using ih h

/-- After saving `r'` (key `rid`) with `r'.driver_id ≠ some uid`, the
ownership lookup of `start_ride`/`complete_ride` for caller `uid` finds
nothing: every ride with key `rid` was replaced by `r'`. -/
theorem find?_saveRide_owner_none (l : List Ride) (r' : Ride) (rid uid : String)
    (hid : r'.id = rid) (hd : r'.driver_id ≠ some uid) :
    (saveRide l r').find? (fun x => x.id == rid && x.driver_id == some uid) = none := by
  rw [List.find?_eq_none]
  intro y hy
  rw [saveRide, List.mem_map] at hy
  obtain ⟨x, hx, hfx⟩ := hy
  by_cases hxid : (x.id == r'.id) = true
  · rw [if_pos hxid] at hfx
    subst hfx
    simp [hd]
  · rw [if_neg hxid] at hfx
    subst hfx
    have hxr : ¬ (x.id == rid) = true := by
      rw [← hid]; exact hxid
    simp only [Bool.and_eq_true]
    exact fun hcon => hxr hcon.1

/-- After saving `a'` in the attendance collection, a lookup that found `a`
(and that `a'` still satisfies) returns `a'`, provided `a'` keeps the
primary key of `a`. -/
theorem find?_saveAttendance_some (l : List DriverAttendance)
    (p : DriverAttendance → Bool) (a a' : DriverAttendance)
    (hf : l.find? p = some a) (hp : p a' = true) (hid : a'.id = a.id) :
    (saveAttendance l a').find? p = some a' := by
  induction l with
  | nil => simp at hf
  | cons x xs ih =>
    simp only [saveAttendance, List.map_cons]
    by_cases hx : (x.id == a'.id) = true
    · rw [if_pos hx]
      exact find?_cons_pos p a' _ hp
    · rw [if_neg hx]
      have hpx : p x = false := by
        by_contra hpx
        have hpx' : p x = true := by simpa using hpx
        rw [find?_cons_pos p x _ hpx'] at hf
        have hxa : x = a := by injection hf
        apply hx
        rw [hid, ← hxa]
        exact beq_self_eq_true x.id
      rw [find?_cons_neg p x _ hpx]
      rw [find?_cons_neg p x _ hpx] at hf
      simpa [saveAttendance] using ih hf

/-- Saving a document whose primary key matches nothing in the collection is
the identity. -/
theorem saveAttendance_eq_self (l : List DriverAttendance) (a' : DriverAttendance)
    (h : ∀ x ∈ l, x.id ≠ a'.id) : saveAttendance l a' = l := by
  induction l with
  | nil => rfl
  | cons x xs ih =>
    simp only [saveAttendance, List.map_cons]
    rw [if_neg (by simpa using h x (List.mem_cons_self x xs))]
    have htail := ih (fun y hy => h y (List.mem_cons_of_mem x hy))
    simp only [saveAttendance] at htail
    rw [htail]

/-! ### Lemmas about the attendance uniqueness invariant -/

/-- Inserting a record for a (driver, day) pair that the collection does not
yet contain preserves the one-record-per-day invariant. -/
theorem attInv_insert (l : List DriverAttendance) (att : DriverAttendance)
    (hinv : attInv l)
    (hnone : l.find? (fun a => a.driver_id == att.driver_id && a.date == att.date) = none) :
    attInv (l ++ [att]) := by
  rw [attInv, List.pairwise_append]
  refine ⟨hinv, List.pairwise_singleton _ _, ?_⟩
  intro a ha b hb
  rw [List.mem_singleton] at hb
  subst hb
  have := List.find?_eq_none.mp hnone a ha
  simp only [Bool.and_eq_true, beq_iff_eq] at this
  exact fun hcon => this ⟨hcon.1, hcon.2⟩

/-- Replacing (by primary key) a record with one that keeps its driver and
day preserves the one-record-per-day invariant, given the store's unique
primary-key index. -/
theorem attInv_save (l : List DriverAttendance)
    (hids : attIdsUnique l) (hinv : attInv l)
    (a a' : DriverAttendance) (hmem : a ∈ l) (hid : a'.id = a.id)
    (hdr : a'.driver_id = a.driver_id) (hdt : a'.date = a.date) :
    attInv (saveAttendance l a') := by
  induction l with
  | nil => simp at hmem
  | cons x xs ih =>
    rw [attIdsUnique, List.pairwise_cons] at hids
    rw [attInv, List.pairwise_cons] at hinv
    obtain ⟨hidx, hidxs⟩ := hids
    obtain ⟨hinvx, hinvxs⟩ := hinv
    simp only [saveAttendance, List.map_cons]
    by_cases hx : (x.id == a'.id) = true
    · rw [if_pos hx]
      have hax : a = x := by
        rcases List.mem_cons.mp hmem with h | h
        · exact h
        · exact absurd ((eq_of_beq hx).trans hid) (hidx a h)
      have htail : xs.map (fun y => if y.id == a'.id then a' else y) = xs := by
        have hne : ∀ y ∈ xs, y.id ≠ a'.id := by
          intro y hy hcon
          exact hidx y hy ((eq_of_beq hx).trans hcon.symm)
        simpa [saveAttendance] using saveAttendance_eq_self xs a' hne
      rw [htail, attInv, List.pairwise_cons]
      refine ⟨?_, hinvxs⟩
      intro y hy
      have := hinvx y hy
      rw [hdr, hdt, hax]
      exact this
    · rw [if_neg hx]
      have hmem' : a ∈ xs := by
        rcases List.mem_cons.mp hmem with h | h
        · exact absurd (by rw [hid, ← h]; exact beq_self_eq_true a.id) hx
        · exact h
      rw [attInv, List.pairwise_cons]
      constructor
      · intro y hy
        rw [List.mem_map] at hy
        obtain ⟨z, hz, hfz⟩ := hy
        by_cases hzid : (z.id == a'.id) = true
        · rw [if_pos hzid] at hfz
          subst hfz
          rw [hdr, hdt]
          exact hinvx a hmem'
        · rw [if_neg hzid] at hfz
          subst hfz
          exact hinvx z hz
      · have := ih hidxs hinvxs hmem'
        simpa [attInv, saveAttendance] using this

/-! ### Concrete fixtures used by the witnesses -/

/-- A freshly requested ride. -/
def ride0 : Ride :=
  { id := "r1", passenger_id := "p1", driver_id := none,
    status := RideStatus.requested, requested_at := 1, assigned_at := none,
    accepted_at := none, picked_up_at := none, completed_at := none,
    cancelled_at := none, distance := 0, start_km := none, end_km := none }

/-- A driver profile whose document id differs from its user id, as minted
by two independent `uuid4()` calls in the source. -/
def drv0 : Driver :=
  { id := "d1", user_id := "u1", is_online := false, last_status_change := 0 }

/-- Store holding one requested ride and one driver. -/
def db0 : DB :=
  { users := [], drivers := [drv0], passengers := [], rides := [ride0],
    fuel_entries := [], attendance := [] }

/-- `ride0` after a successful assignment to driver profile `d1` at time 5. -/
def rideAssignedD : Ride :=
  { ride0 with
    driver_id := some "d1"
    status := RideStatus.assigned
    assigned_at := some 5 }

/-- `db0` after `assign_ride db0 "r1" "d1" 5`. -/
def dbAfterAssign : DB := { db0 with rides := [rideAssignedD] }

/-- A ride assigned directly to the caller's user id (the shape `start_ride`
expects). -/
def rideOwned : Ride :=
  { ride0 with
    driver_id := some "u1"
    status := RideStatus.assigned
    assigned_at := some 2 }

/-- A ride in progress owned by user `u1`, odometer start 45230. -/
def rideInProgress : Ride :=
  { rideOwned with
    status := RideStatus.in_progress
    picked_up_at := some 3
    start_km := some 45230 }

/-- Store with an in-progress ride owned by `u1`. -/
def dbInProgress : DB := { db0 with rides := [rideInProgress] }

/-! ### Success characterizations of the three ride transitions -/

/-- A successful `assign_ride` found a REQUESTED ride and saved it with the
driver id, the ASSIGNED status and the assignment timestamp. -/
theorem assign_ride_ok (db : DB) (rid did : String) (now : Nat) (db' : DB)
    (h : assign_ride db rid did now = .ok db') :
    ∃ r, db.rides.find? (fun x => x.id == rid) = some r ∧
      r.status = RideStatus.requested ∧
      db' = { db with rides := saveRide db.rides (
        { r with
          driver_id := some did
          status := RideStatus.assigned
          assigned_at := some now }) } := by
  unfold assign_ride at h
  split at h
  · simp at h
  · rename_i r hf
    split at h
    · simp at h
    · rename_i hs
      split at h
      · simp at h
      · rename_i d hd
        refine ⟨r, hf, not_not.mp hs, ?_⟩
        injection h with h2
        exact h2.symm

/-- A successful `start_ride` found an ASSIGNED ride owned by the caller and
saved it IN_PROGRESS with the pickup timestamp and the start odometer. -/
theorem start_ride_ok (db : DB) (rid uid : String) (skm : Option Int)
    (now : Nat) (db' : DB) (h : start_ride db rid uid skm now = .ok db') :
    ∃ r, db.rides.find? (fun x => x.id == rid && x.driver_id == some uid) = some r ∧
      r.status = RideStatus.assigned ∧
      db' = { db with rides := saveRide db.rides (
        { r with
          status := RideStatus.in_progress
          picked_up_at := some now
          start_km := skm }) } := by
  unfold start_ride at h
  split at h
  · simp at h
  · rename_i r hf
    split at h
    · simp at h
    · rename_i hs
      refine ⟨r, hf, not_not.mp hs, ?_⟩
      injection h with h2
      exact h2.symm

/-- A successful `complete_ride` found an IN_PROGRESS ride owned by the
caller and saved it COMPLETED with the completion timestamp, the end
odometer and the derived distance. -/
theorem complete_ride_ok (db : DB) (rid uid : String) (ekm : Option Int)
    (now : Nat) (db' : DB) (h : complete_ride db rid uid ekm now = .ok db') :
    ∃ r, db.rides.find? (fun x => x.id == rid && x.driver_id == some uid) = some r ∧
      r.status = RideStatus.in_progress ∧
      db' = { db with rides := saveRide db.rides (
        { r with
          status := RideStatus.completed
          completed_at := some now
          end_km := ekm
          distance := ride_distance r.start_km ekm }) } := by
  unfold complete_ride at h
  split at h
  · simp at h
  · rename_i r hf
    split at h
    · simp at h
    · rename_i hs
      refine ⟨r, hf, not_not.mp hs, ?_⟩
      injection h with h2
      exact h2.symm

/-- The ride found by an ownership lookup is also found by the plain id
lookup (possibly as a different first match, but some match exists). -/
theorem find?_id_isSome_of_owner (l : List Ride) (rid uid : String) (r : Ride)
    (hf : l.find? (fun x => x.id == rid && x.driver_id == some uid) = some r) :
    (l.find? (fun x => x.id == rid)).isSome = true := by
  rw [List.find?_isSome]
  refine ⟨r, List.mem_of_find?_eq_some hf, ?_⟩
  have hp := List.find?_some hf
  simp only [Bool.and_eq_true] at hp
  exact hp.1

/-- C1: ride `status` changes only along the edges REQUESTED→ASSIGNED
(`assign_ride`), ASSIGNED→IN_PROGRESS (`start_ride`) and
IN_PROGRESS→COMPLETED (`complete_ride`): a successful call found the ride in
exactly the source state of its edge and leaves it in exactly the target
state, and a call that finds the ride in any other state fails with the
InvalidTransition error (HTTP 400 with the guard's detail string); an
error return carries no store, so nothing — in particular no status — is
written. -/
theorem C1_ride_status_machine (db : DB) (rid did uid : String)
    (skm ekm : Option Int) (now : Nat) :
    ((assign_ride db rid did now).isOk = true →
      (db.rides.find? (fun x => x.id == rid)).map Ride.status =
        some RideStatus.requested ∧
      (rideAfter (assign_ride db rid did now) rid).map Ride.status =
        some RideStatus.assigned) ∧
    (∀ r, db.rides.find? (fun x => x.id == rid) = some r →
      r.status ≠ RideStatus.requested →
      assign_ride db rid did now = .error ⟨400, "Ride is not in pending status"⟩) ∧
    ((start_ride db rid uid skm now).isOk = true →
      (db.rides.find? (fun x => x.id == rid && x.driver_id == some uid)).map
          Ride.status = some RideStatus.assigned ∧
      (rideAfter (start_ride db rid uid skm now) rid).map Ride.status =
        some RideStatus.in_progress) ∧
    (∀ r, db.rides.find? (fun x => x.id == rid && x.driver_id == some uid) = some r →
      r.status ≠ RideStatus.assigned →
      start_ride db rid uid skm now = .error ⟨400, "Ride is not assigned"⟩) ∧
    ((complete_ride db rid uid ekm now).isOk = true →
      (db.rides.find? (fun x => x.id == rid && x.driver_id == some uid)).map
          Ride.status = some RideStatus.in_progress ∧
      (rideAfter (complete_ride db rid uid ekm now) rid).map Ride.status =
        some RideStatus.completed) ∧
    (∀ r, db.rides.find? (fun x => x.id == rid && x.driver_id == some uid) = some r →
      r.status ≠ RideStatus.in_progress →
      complete_ride db rid uid ekm now = .error ⟨400, "Ride is not in progress"⟩) := by
  refine ⟨?_, ?_, ?_, ?_, ?_, ?_⟩
  · intro hok
    cases hres : assign_ride db rid did now with
    | error e => rw [hres] at hok; simp [Except.isOk, Except.toBool] at hok
    | ok db' =>
      obtain ⟨r, hf, hs, hdb⟩ := assign_ride_ok db rid did now db' hres
      have hrid : r.id = rid := by simpa using List.find?_some hf
      constructor
      · rw [hf, Option.map_some', hs]
      · have hobs : rideAfter (Except.ok db' : Except ApiError DB) rid =
            db'.rides.find? (fun x => x.id == rid) := rfl
        rw [hobs, hdb]
        dsimp only
        rw [find?_saveRide_isSome db.rides
          { r with
            driver_id := some did
            status := RideStatus.assigned
            assigned_at := some now } rid hrid (by rw [hf]; rfl)]
        rfl
  · intro r hf hs
    unfold assign_ride
    rw [hf]
    dsimp only
    rw [if_pos hs]
  · intro hok
    cases hres : start_ride db rid uid skm now with
    | error e => rw [hres] at hok; simp [Except.isOk, Except.toBool] at hok
    | ok db' =>
      obtain ⟨r, hf, hs, hdb⟩ := start_ride_ok db rid uid skm now db' hres
      have hrid : r.id = rid := by
        have hp := List.find?_some hf
        simp only [Bool.and_eq_true, beq_iff_eq] at hp
        exact hp.1
      constructor
      · rw [hf, Option.map_some', hs]
      · have hobs : rideAfter (Except.ok db' : Except ApiError DB) rid =
            db'.rides.find? (fun x => x.id == rid) := rfl
        rw [hobs, hdb]
        dsimp only
        rw [find?_saveRide_isSome db.rides
          { r with
            status := RideStatus.in_progress
            picked_up_at := some now
            start_km := skm } rid hrid
          (find?_id_isSome_of_owner db.rides rid uid r hf)]
        rfl
  · intro r hf hs
    unfold start_ride
    rw [hf]
    dsimp only
    rw [if_pos hs]
  · intro hok
    cases hres : complete_ride db rid uid ekm now with
    | error e => rw [hres] at hok; simp [Except.isOk, Except.toBool] at hok
    | ok db' =>
      obtain ⟨r, hf, hs, hdb⟩ := complete_ride_ok db rid uid ekm now db' hres
      have hrid : r.id = rid := by
        have hp := List.find?_some hf
        simp only [Bool.and_eq_true, beq_iff_eq] at hp
        exact hp.1
      constructor
      · rw [hf, Option.map_some', hs]
      · have hobs : rideAfter (Except.ok db' : Except ApiError DB) rid =
            db'.rides.find? (fun x => x.id == rid) := rfl
        rw [hobs, hdb]
        dsimp only
        rw [find?_saveRide_isSome db.rides
          { r with
            status := RideStatus.completed
            completed_at := some now
            end_km := ekm
            distance := ride_distance r.start_km ekm } rid hrid
          (find?_id_isSome_of_owner db.rides rid uid r hf)]
        rfl
  · intro r hf hs
    unfold complete_ride
    rw [hf]
    dsimp only
    rw [if_pos hs]

/-- C1 witness: on the concrete store `db0`, assigning the requested ride
`r1` to driver `d1` succeeds, moving the ride along the
REQUESTED→ASSIGNED edge. -/
theorem C1_witness :
    (db0.rides.find? (fun x => x.id == "r1")).map Ride.status =
      some RideStatus.requested ∧
    (rideAfter (assign_ride db0 "r1" "d1" 5) "r1").map Ride.status =
      some RideStatus.assigned :=
  (C1_ride_status_machine db0 "r1" "d1" "u1" none none 5).1 (by decide)

/-- C8: each successful transition overwrites `status` plus exactly one
timestamp — `assigned_at` for assign (together with `driver_id`),
`picked_up_at` for start (together with `start_km`), `completed_at` for
complete (together with `end_km` and `distance`) — and every field not
listed in the record update, in particular the five other timestamps, is
carried over unchanged from the ride that was found. -/
theorem C8_timestamp_frame (db : DB) (rid did uid : String)
    (skm ekm : Option Int) (now : Nat) :
    (∀ r db', db.rides.find? (fun x => x.id == rid) = some r →
      assign_ride db rid did now = .ok db' →
      db'.rides.find? (fun x => x.id == rid) =
        some { r with
          driver_id := some did
          status := RideStatus.assigned
          assigned_at := some now }) ∧
    (∀ r db', db.rides.find? (fun x => x.id == rid && x.driver_id == some uid) = some r →
      start_ride db rid uid skm now = .ok db' →
      db'.rides.find? (fun x => x.id == rid) =
        some { r with
          status := RideStatus.in_progress
          picked_up_at := some now
          start_km := skm }) ∧
    (∀ r db', db.rides.find? (fun x => x.id == rid && x.driver_id == some uid) = some r →
      complete_ride db rid uid ekm now = .ok db' →
      db'.rides.find? (fun x => x.id == rid) =
        some { r with
          status := RideStatus.completed
          completed_at := some now
          end_km := ekm
          distance := ride_distance r.start_km ekm }) := by
  refine ⟨?_, ?_, ?_⟩
  · intro r db' hf hok
    obtain ⟨r0, hf0, hs0, hdb⟩ := assign_ride_ok db rid did now db' hok
    have hrr : r0 = r := by
      have := hf0.symm.trans hf
      injection this
    subst hrr
    have hrid : r0.id = rid := by simpa using List.find?_some hf0
    rw [hdb]
    dsimp only
    exact find?_saveRide_isSome db.rides _ rid hrid (by rw [hf0]; rfl)
  · intro r db' hf hok
    obtain ⟨r0, hf0, hs0, hdb⟩ := start_ride_ok db rid uid skm now db' hok
    have hrr : r0 = r := by
      have := hf0.symm.trans hf
      injection this
    subst hrr
    have hrid : r0.id = rid := by
      have hp := List.find?_some hf0
      simp only [Bool.and_eq_true, beq_iff_eq] at hp
      exact hp.1
    rw [hdb]
    dsimp only
    exact find?_saveRide_isSome db.rides _ rid hrid
      (find?_id_isSome_of_owner db.rides rid uid r0 hf0)
  · intro r db' hf hok
    obtain ⟨r0, hf0, hs0, hdb⟩ := complete_ride_ok db rid uid ekm now db' hok
    have hrr : r0 = r := by
      have := hf0.symm.trans hf
      injection this
    subst hrr
    have hrid : r0.id = rid := by
      have hp := List.find?_some hf0
      simp only [Bool.and_eq_true, beq_iff_eq] at hp
      exact hp.1
    rw [hdb]
    dsimp only
    exact find?_saveRide_isSome db.rides _ rid hrid
      (find?_id_isSome_of_owner db.rides rid uid r0 hf0)

/-- C8 witness: assigning the concrete requested ride `r1` rewrites exactly
`driver_id`, `status` and `assigned_at`, keeping all other fields of
`ride0`. -/
theorem C8_witness :
    dbAfterAssign.rides.find? (fun x => x.id == "r1") =
      some { ride0 with
        driver_id := some "d1"
        status := RideStatus.assigned
        assigned_at := some 5 } :=
  (C8_timestamp_frame db0 "r1" "d1" "u1" none none 5).1 ride0 dbAfterAssign
    (by decide) (by rfl)

/-- Store holding a ride assigned (by user id) to `u1`, plus driver `d1`. -/
def dbOwned : DB := { db0 with rides := [rideOwned] }

/-- C4: a second `assign_ride` on an already-assigned ride fails with the
InvalidTransition error (HTTP 400, "Ride is not in pending status"), and —
since an error writes nothing — the ride keeps the `driver_id` stored by
the first successful assignment. -/
theorem C4_second_assign (db : DB) (rid d1 d2 : String) (n1 n2 : Nat) :
    ∀ db', assign_ride db rid d1 n1 = .ok db' →
      assign_ride db' rid d2 n2 = .error ⟨400, "Ride is not in pending status"⟩ ∧
      (db'.rides.find? (fun x => x.id == rid)).map Ride.driver_id =
        some (some d1) := by
  intro db' h
  obtain ⟨r, hf, hs, hdb⟩ := assign_ride_ok db rid d1 n1 db' h
  have hrid : r.id = rid := by simpa using List.find?_some hf
  have hfind : db'.rides.find? (fun x => x.id == rid) =
      some { r with
        driver_id := some d1
        status := RideStatus.assigned
        assigned_at := some n1 } := by
    rw [hdb]
    dsimp only
    exact find?_saveRide_isSome db.rides _ rid hrid (by rw [hf]; rfl)
  constructor
  · unfold assign_ride
    rw [hfind]
    dsimp only
    rw [if_pos (by decide)]
  · rw [hfind]
    rfl

/-- C4 witness: assigning `r1` to `d1` and then asking to assign it again
(to `d2`) produces InvalidTransition and leaves `driver_id = d1`. -/
theorem C4_witness :
    assign_ride dbAfterAssign "r1" "d2" 9 =
      .error ⟨400, "Ride is not in pending status"⟩ ∧
    (dbAfterAssign.rides.find? (fun x => x.id == "r1")).map Ride.driver_id =
      some (some "d1") :=
  C4_second_assign db0 "r1" "d1" "d2" 5 9 dbAfterAssign (by rfl)

/-- C5: a driver whose id matches no `(ride id, driver_id)` pair — in
particular the caller when the ride belongs to a different driver — gets
the NotFound error (HTTP 404) from `start_ride`, not Forbidden: the
ownership check is part of the lookup filter. -/
theorem C5_foreign_start_not_found (db : DB) (rid uid : String)
    (skm : Option Int) (now : Nat)
    (h : ∀ r ∈ db.rides, r.id = rid → r.driver_id ≠ some uid) :
    start_ride db rid uid skm now = .error ⟨404, "Ride not found"⟩ := by
  have hnone : db.rides.find?
      (fun x => x.id == rid && x.driver_id == some uid) = none := by
    rw [List.find?_eq_none]
    intro x hx
    simp only [Bool.and_eq_true, beq_iff_eq, not_and]
    intro h1 h2
    exact h x hx h1 h2
  unfold start_ride
  rw [hnone]

/-- C5 witness: the ride `r1` is assigned to driver-user `u1`; caller `u2`
gets NotFound from `start_ride`. -/
theorem C5_witness :
    start_ride dbOwned "r1" "u2" none 7 = .error ⟨404, "Ride not found"⟩ :=
  C5_foreign_start_not_found dbOwned "r1" "u2" none 7 (by decide)

/-- C3: `assign_ride` validates the requested driver id against the Driver
collection's primary key and stores that profile id in `ride.driver_id`,
while `start_ride`/`complete_ride` filter by the caller's User id; hence
whenever the assigned driver's profile id differs from their user id, that
driver's own start/complete calls fail with NotFound. -/
theorem C3_profile_id_mismatch (db : DB) (rid did : String) (now now2 : Nat)
    (skm ekm : Option Int) (d : Driver)
    (hfind : db.drivers.find? (fun x => x.id == did) = some d)
    (hne : d.id ≠ d.user_id) :
    ∀ db', assign_ride db rid did now = .ok db' →
      (db'.rides.find? (fun x => x.id == rid)).map Ride.driver_id =
        some (some did) ∧
      start_ride db' rid d.user_id skm now2 = .error ⟨404, "Ride not found"⟩ ∧
      complete_ride db' rid d.user_id ekm now2 = .error ⟨404, "Ride not found"⟩ := by
  intro db' h
  obtain ⟨r, hf, hs, hdb⟩ := assign_ride_ok db rid did now db' h
  have hrid : r.id = rid := by simpa using List.find?_some hf
  have hdid : did ≠ d.user_id := by
    have hd : d.id = did := by simpa using List.find?_some hfind
    rw [← hd]
    exact hne
  have hnone : db'.rides.find?
      (fun x => x.id == rid && x.driver_id == some d.user_id) = none := by
    rw [hdb]
    dsimp only
    exact find?_saveRide_owner_none db.rides _ rid d.user_id hrid
      (by simpa using hdid)
  refine ⟨?_, ?_, ?_⟩
  · have hfind2 : db'.rides.find? (fun x => x.id == rid) =
        some { r with
          driver_id := some did
          status := RideStatus.assigned
          assigned_at := some now } := by
      rw [hdb]
      dsimp only
      exact find?_saveRide_isSome db.rides _ rid hrid (by rw [hf]; rfl)
    rw [hfind2]
    rfl
  · unfold start_ride
    rw [hnone]
  · unfold complete_ride
    rw [hnone]

/-- C3 witness: in `db0` the driver profile id is `d1` but the user id is
`u1`; after assignment of `r1` to `d1`, user `u1` (the very driver) gets
NotFound on both start and complete. -/
theorem C3_witness :
    (dbAfterAssign.rides.find? (fun x => x.id == "r1")).map Ride.driver_id =
      some (some "d1") ∧
    start_ride dbAfterAssign "r1" "u1" (some 10) 6 =
      .error ⟨404, "Ride not found"⟩ ∧
    complete_ride dbAfterAssign "r1" "u1" (some 20) 6 =
      .error ⟨404, "Ride not found"⟩ :=
  C3_profile_id_mismatch db0 "r1" "d1" 5 6 (some 10) (some 20) drv0
    (by rfl) (by decide) dbAfterAssign (by rfl)

/-- A ride in progress owned by `u1` whose start odometer reading is the
integer `0` — present, but falsy under Python truthiness. -/
def rideZeroStart : Ride :=
  { rideOwned with
    status := RideStatus.in_progress
    picked_up_at := some 3
    start_km := some 0 }

/-- Store with the zero-start-reading ride. -/
def dbZeroStart : DB := { db0 with rides := [rideZeroStart] }

/-- C2 counterexample: with `start_km = 0` and `end_km = 50` — both
present — the code stores `distance = 0`, not `end_km - start_km = 50`:
the guard `if ride.start_km and end_km` tests Python truthiness, and the
integer `0` is falsy. -/
theorem C2_counterexample :
    (rideAfter (complete_ride dbZeroStart "r1" "u1" (some 50) 9) "r1").map
        Ride.start_km = some (some 0) ∧
    (rideAfter (complete_ride dbZeroStart "r1" "u1" (some 50) 9) "r1").map
        Ride.end_km = some (some 50) ∧
    (rideAfter (complete_ride dbZeroStart "r1" "u1" (some 50) 9) "r1").map
        Ride.distance = some 0 ∧
    (50 : Int) - 0 ≠ 0 := by decide

/-- C2 (amended): for an IN_PROGRESS ride owned by the caller, `complete`
stores `distance = end_km - start_km` whenever both readings are present
and nonzero, and stores `distance = 0` when either reading is absent or
equal to `0` (the source tests Python truthiness, under which a reading of
`0` counts as absent). -/
theorem C2_distance_truthiness (db : DB) (rid uid : String)
    (ekm : Option Int) (now : Nat) :
    ∀ r, db.rides.find? (fun x => x.id == rid && x.driver_id == some uid) = some r →
      r.status = RideStatus.in_progress →
      ((∀ s e, r.start_km = some s → ekm = some e → s ≠ 0 → e ≠ 0 →
        (rideAfter (complete_ride db rid uid ekm now) rid).map Ride.distance =
          some (e - s)) ∧
       ((r.start_km = none ∨ r.start_km = some 0 ∨ ekm = none ∨ ekm = some 0) →
        (rideAfter (complete_ride db rid uid ekm now) rid).map Ride.distance =
          some 0)) := by
  intro r hf hs
  have hrid : r.id = rid := by
    have hp := List.find?_some hf
    simp only [Bool.and_eq_true, beq_iff_eq] at hp
    exact hp.1
  have hres : complete_ride db rid uid ekm now = .ok { db with
      rides := saveRide db.rides (
        { r with
          status := RideStatus.completed
          completed_at := some now
          end_km := ekm
          distance := ride_distance r.start_km ekm }) } := by
    unfold complete_ride
    rw [hf]
    dsimp only
    rw [if_neg (not_not_intro hs)]
  have hfound : (rideAfter (complete_ride db rid uid ekm now) rid) =
      some { r with
        status := RideStatus.completed
        completed_at := some now
        end_km := ekm
        distance := ride_distance r.start_km ekm } := by
    rw [hres]
    exact find?_saveRide_isSome db.rides _ rid hrid
      (find?_id_isSome_of_owner db.rides rid uid r hf)
  constructor
  · intro s e hsk hek hs0 he0
    rw [hfound, Option.map_some']
    have : ride_distance r.start_km ekm = e - s := by
      rw [hsk, hek]
      simp [ride_distance, py_truthy_int, bne_iff_ne, hs0, he0]
    simpa using this
  · intro hcase
    rw [hfound, Option.map_some']
    have : ride_distance r.start_km ekm = 0 := by
      rcases hcase with hc | hc | hc | hc <;>
        simp [ride_distance, py_truthy_int, hc]
    simpa using this

/-- C2 witness (the specification's own example): start_km 45230 and
end_km 45280 yield a stored distance of 50. -/
theorem C2_witness :
    (rideAfter (complete_ride dbInProgress "r1" "u1" (some 45280) 8) "r1").map
      Ride.distance = some 50 := by
  have h := ((C2_distance_truthiness dbInProgress "r1" "u1" (some 45280) 8)
    rideInProgress (by rfl) (by decide)).1 45230 45280 (by rfl) (by rfl)
    (by decide) (by decide)
  rw [h]
  norm_num

/-- C6: on a transition to offline, if today's attendance record exists and
lacks `check_out`, the handler sets `check_out = now` and
`total_hours = (check_out - check_in)/3600` hours (`0.0` when `check_in` is
absent); if the record already has a `check_out`, or no record exists for
today, the attendance collection is left exactly as it was (the driver's
own status fields are still updated). -/
theorem C6_offline_checkout (db : DB) (uid : String) (now today : Nat)
    (fresh : String) (d : Driver)
    (hd : db.drivers.find? (fun x => x.user_id == uid) = some d) :
    (∀ a, db.attendance.find?
        (fun x => x.driver_id == d.id && x.date == today) = some a →
      a.check_out = none →
      attAfter (update_my_status db uid false now today fresh) d.id today =
        some { a with
          check_out := some now
          total_hours := some (total_hours_calc a.check_in now) }) ∧
    (∀ a t, db.attendance.find?
        (fun x => x.driver_id == d.id && x.date == today) = some a →
      a.check_out = some t →
      attendanceAfter (update_my_status db uid false now today fresh) =
        some db.attendance) ∧
    (db.attendance.find?
        (fun x => x.driver_id == d.id && x.date == today) = none →
      attendanceAfter (update_my_status db uid false now today fresh) =
        some db.attendance) := by
  refine ⟨?_, ?_, ?_⟩
  · intro a ha hco
    have hres : update_my_status db uid false now today fresh = .ok { db with
        drivers := saveDriver db.drivers (
          { d with is_online := false, last_status_change := now })
        attendance := saveAttendance db.attendance (
          { a with
            check_out := some now
            total_hours := some (total_hours_calc a.check_in now) }) } := by
      unfold update_my_status
      rw [hd]
      dsimp only
      rw [if_neg Bool.false_ne_true, ha]
      dsimp only
      rw [if_pos (by rw [hco]; rfl)]
    rw [hres]
    have hp := List.find?_some ha
    exact find?_saveAttendance_some db.attendance
      (fun x => x.driver_id == d.id && x.date == today) a
      { a with
        check_out := some now
        total_hours := some (total_hours_calc a.check_in now) }
      ha hp rfl
  · intro a t ha hco
    have hres : update_my_status db uid false now today fresh = .ok { db with
        drivers := saveDriver db.drivers (
          { d with is_online := false, last_status_change := now })
        attendance := db.attendance } := by
      unfold update_my_status
      rw [hd]
      dsimp only
      rw [if_neg Bool.false_ne_true, ha]
      dsimp only
      rw [if_neg (by rw [hco]; simp)]
    rw [hres]
    rfl
  · intro hnone
    have hres : update_my_status db uid false now today fresh = .ok { db with
        drivers := saveDriver db.drivers (
          { d with is_online := false, last_status_change := now })
        attendance := db.attendance } := by
      unfold update_my_status
      rw [hd]
      dsimp only
      rw [if_neg Bool.false_ne_true, hnone]
    rw [hres]
    rfl

/-- Today's attendance record of driver `d1` with a morning check-in
(09:00:00 as 32400 seconds) and no check-out yet. -/
def attToday : DriverAttendance :=
  { id := "a1", driver_id := "d1", date := 0, check_in := some 32400,
    check_out := none, total_hours := none, status := "present" }

/-- Store with driver `d1` and today's open attendance record. -/
def dbAtt : DB := { db0 with attendance := [attToday] }

/-- C6 witness (the specification's example): check-in 09:00:00, check-out
17:30:00 gives total_hours = 8.5. -/
theorem C6_witness :
    attAfter (update_my_status dbAtt "u1" false 63000 0 "f1") "d1" 0 =
      some { attToday with
        check_out := some 63000
        total_hours := some ((17 : ℚ)/2) } := by
  have h := (C6_offline_checkout dbAtt "u1" 63000 0 "f1" drv0 (by rfl)).1
    attToday (by rfl) (by rfl)
  rw [show attToday.check_in = some 32400 from rfl] at h
  rw [show total_hours_calc (some 32400) 63000 = (17 : ℚ)/2 from by
    norm_num [total_hours_calc]] at h
  exact h

/-- C7: every `update_my_status` call preserves the invariant that at most
one DriverAttendance record exists per (driver_id, calendar date): a record
is inserted only when the lookup for (driver.id, today-at-midnight) finds
none, so two online transitions on the same day yield one record, not two.
The `attIdsUnique` hypothesis is the store's unique `_id` index, which
`save` (full-document replace by primary key) relies on. -/
theorem C7_attendance_unique_per_day (db : DB) (uid : String) (online : Bool)
    (now today : Nat) (fresh : String)
    (hids : attIdsUnique db.attendance) (hinv : attInv db.attendance) :
    ∀ db', update_my_status db uid online now today fresh = .ok db' →
      attInv db'.attendance := by
  intro db' h
  unfold update_my_status at h
  split at h
  · simp at h
  · rename_i d hd
    by_cases ho : online = true
    · subst ho
      rw [if_pos rfl] at h
      split at h
      · rename_i hfound
        injection h with h2
        subst h2
        dsimp only
        exact attInv_insert db.attendance _ hinv hfound
      · rename_i att hfound
        split at h
        · injection h with h2
          subst h2
          dsimp only
          exact attInv_save db.attendance hids hinv att _
            (List.mem_of_find?_eq_some hfound) rfl rfl rfl
        · injection h with h2
          subst h2
          dsimp only
          exact hinv
    · have ho' : online = false := by
        revert ho
        cases online <;> simp
      subst ho'
      rw [if_neg Bool.false_ne_true] at h
      split at h
      · rename_i att hfound
        split at h
        · injection h with h2
          subst h2
          dsimp only
          exact attInv_save db.attendance hids hinv att _
            (List.mem_of_find?_eq_some hfound) rfl rfl rfl
        · injection h with h2
          subst h2
          dsimp only
          exact hinv
      · injection h with h2
        subst h2
        dsimp only
        exact hinv

/-- Driver `d1` after the witness's second online signal. -/
def drv0on : Driver := { drv0 with is_online := true, last_status_change := 40000 }

/-- `dbAtt` after the witness's second online signal: the driver document is
updated, the attendance collection is untouched — still one record. -/
def dbAttOn : DB := { dbAtt with drivers := [drv0on] }

/-- C7 witness: with one attendance record already present for (d1, today),
a further online transition keeps the collection at one record per
(driver, date). -/
theorem C7_witness : attInv dbAttOn.attendance :=
  C7_attendance_unique_per_day dbAtt "u1" true 40000 0 "a2" (by decide)
    (by decide) dbAttOn (by rfl)

/-- C9: fuel-entry queries are role-scoped — an admin gets all entries, or,
when a (non-empty) driver filter is given, exactly the entries of that
driver; a driver always gets exactly their own entries, whatever filter
they pass; any other role (passenger) gets the Forbidden error
(HTTP 403). -/
theorem C9_fuel_role_scope (db : DB) (current_user : User)
    (driver_id : Option String) :
    (current_user.role = UserRole.admin →
      (driver_id = none →
        get_fuel_entries db current_user driver_id = .ok db.fuel_entries) ∧
      (∀ s, driver_id = some s → s ≠ "" →
        get_fuel_entries db current_user driver_id =
          .ok (db.fuel_entries.filter (fun e => e.driver_id == s)))) ∧
    (current_user.role = UserRole.driver →
      get_fuel_entries db current_user driver_id =
        .ok (db.fuel_entries.filter (fun e => e.driver_id == current_user.id))) ∧
    (current_user.role = UserRole.passenger →
      get_fuel_entries db current_user driver_id =
        .error ⟨403, "Not authorized"⟩) := by
  refine ⟨?_, ?_, ?_⟩
  · intro hrole
    constructor
    · intro hnone
      subst hnone
      unfold get_fuel_entries
      rw [if_pos hrole]
      rw [if_neg (by simp [py_truthy_str])]
      rw [List.filter_true]
    · intro s hsome hne
      subst hsome
      unfold get_fuel_entries
      rw [if_pos hrole]
      rw [if_pos (by simp [py_truthy_str, hne])]
      rfl
  · intro hrole
    unfold get_fuel_entries
    rw [if_neg (by rw [hrole]; decide), if_pos hrole]
  · intro hrole
    unfold get_fuel_entries
    rw [if_neg (by rw [hrole]; decide), if_neg (by rw [hrole]; decide)]

/-- An admin user on record. -/
def adminUser : User :=
  { id := "adm", name := "A", email := "a@x", phone := "0",
    role := UserRole.admin, password_hash := "h", created_at := 0,
    is_active := true }

/-- Two fuel entries by different drivers. -/
def fuelX : FuelEntry :=
  { id := "f1", driver_id := "ux", amount := 10, cost := 20, date := 1,
    location := "L", added_by := "driver", admin_id := none }

/-- Second fuel entry, by a different driver. -/
def fuelY : FuelEntry :=
  { id := "f2", driver_id := "uy", amount := 5, cost := 9, date := 2,
    location := "M", added_by := "driver", admin_id := none }

/-- Store with two fuel entries. -/
def dbFuel : DB := { db0 with fuel_entries := [fuelX, fuelY] }

/-- C9 witness: an admin filtering on driver `ux` gets exactly that
driver's entries. -/
theorem C9_witness :
    get_fuel_entries dbFuel adminUser (some "ux") =
      .ok (dbFuel.fuel_entries.filter (fun e => e.driver_id == "ux")) :=
  ((C9_fuel_role_scope dbFuel adminUser (some "ux")).1 (by rfl)).2 "ux"
    (by rfl) (by decide)

/-- C10: the three admin user-creation handlers hash the fixed string
`"password"` for the new user's credential.  The stored `password_hash` is
always `get_password_hash "password"`, and the result of each handler does
not depend on any `password` field of the request. -/
theorem C10_default_password (gph : String → String) (db : DB)
    (ud : UserData) (dd : DriverData) (pd : PassengerData)
    (fu fd fp : String) (now : Nat) :
    (∀ db' u, create_user gph db ud fu now = .ok (db', u) →
      u.password_hash = gph "password") ∧
    (∀ p q, create_user gph db { ud with password := p } fu now =
      create_user gph db { ud with password := q } fu now) ∧
    (∀ db' u dr, create_driver gph db dd fu fd now = .ok (db', u, dr) →
      u.password_hash = gph "password") ∧
    (∀ p q,
      create_driver gph db { dd with user := { dd.user with password := p } } fu fd now =
      create_driver gph db { dd with user := { dd.user with password := q } } fu fd now) ∧
    (∀ db' u pr, create_passenger gph db pd fu fp now = .ok (db', u, pr) →
      u.password_hash = gph "password") ∧
    (∀ p q,
      create_passenger gph db { pd with user := { pd.user with password := p } } fu fp now =
      create_passenger gph db { pd with user := { pd.user with password := q } } fu fp now) := by
  refine ⟨?_, ?_, ?_, ?_, ?_, ?_⟩
  · intro db' u h
    unfold create_user at h
    split at h
    · simp at h
    · simp only [Except.ok.injEq, Prod.mk.injEq] at h
      rw [← h.2]
  · intro p q
    cases ud
    rfl
  · intro db' u dr h
    unfold create_driver at h
    split at h
    · simp at h
    · simp only [Except.ok.injEq, Prod.mk.injEq] at h
      rw [← h.2.1]
  · intro p q
    obtain ⟨⟨n, e, ph, ro, pw⟩⟩ := dd
    rfl
  · intro db' u pr h
    unfold create_passenger at h
    split at h
    · simp at h
    · simp only [Except.ok.injEq, Prod.mk.injEq] at h
      rw [← h.2.1]
  · intro p q
    obtain ⟨⟨n, e, ph, ro, pw⟩, ra, tr⟩ := pd
    rfl

/-- A user-creation request that supplies a password the handler ignores. -/
def udEx : UserData :=
  { name := "N", email := "e@x", phone := "7", role := UserRole.admin,
    password := some "hunter2" }

/-- A driver-creation request. -/
def ddEx : DriverData := { user := { udEx with email := "d@x" } }

/-- A passenger-creation request. -/
def pdEx : PassengerData :=
  { user := { udEx with email := "p@x" }, rating := none, total_rides := none }

/-- An empty store. -/
def dbEmpty : DB :=
  { users := [], drivers := [], passengers := [], rides := [],
    fuel_entries := [], attendance := [] }

/-- A concrete stand-in hash function for the witness. -/
def gph0 : String → String := fun s => "h:" ++ s

/-- The user document `create_user gph0 dbEmpty udEx "u9" 0` inserts. -/
def userX : User :=
  { id := "u9", name := "N", email := "e@x", phone := "7",
    role := UserRole.admin, password_hash := gph0 "password",
    created_at := 0, is_active := true }

/-- C10 witness: creating a user from a request carrying password
`"hunter2"` succeeds and stores the hash of the fixed string
`"password"`. -/
theorem C10_witness :
    create_user gph0 dbEmpty udEx "u9" 0 =
      .ok ({ dbEmpty with users := [userX] }, userX) ∧
    userX.password_hash = gph0 "password" :=
  ⟨by rfl,
   (C10_default_password gph0 dbEmpty udEx ddEx pdEx "u9" "d9" "p9" 0).1
     { dbEmpty with users := [userX] } userX (by rfl)⟩
